import Mathlib

/-!
Shallow embedding of the `large-download` package (`index.js`).

The package exposes a class `LargeDownload` whose `load()` method runs an
event-driven attempt/retry state machine: each attempt pipes a `got` HTTP
stream into an `fs` write stream, optionally arms a timeout timer on the
outbound request, tracks `downloadedSize` against the `content-length`
header, optionally drives a progress bar, and funnels every failure origin
into `onError`, which performs `cleanup()` and then either schedules a
retry (on the writable's `close` event) or rejects the promise with an
aggregate error.

We model `load()` as a deterministic step function over the events the
Node.js runtime can deliver to the registered handlers (stream errors,
the `request` event, timer expiry, the `response` event, `data` chunks,
the writable's `finish` and `close` events).  Side effects that the
claims talk about (progress-bar construction, `tick`, `terminate`,
`onRetry` invocations, `resolve`/`reject` calls, `req.abort()`, the
individual teardown actions) are recorded in an append-only action log.
-/

namespace LargeDownload

/-- A JavaScript number as it appears in this code: either `NaN`
(e.g. `parseInt(undefined, 10)` when the `content-length` header is
absent) or a non-negative integer. -/
inductive JsNum where
  | nan : JsNum
  | num : Nat → JsNum
deriving DecidableEq

/-- JS truthiness of a `JsNum`: `NaN` and `0` are falsy. -/
def JsNum.truthy : JsNum → Bool
  | .nan => false
  | .num n => n != 0

/-- `declaredSize > minSizeToShowProgress` in JS, where the limit may be
`Infinity` (modelled as `none`): comparisons against `NaN` are false, and
nothing exceeds `Infinity`. -/
def JsNum.gtLimit : JsNum → Option Nat → Bool
  | .nan, _ => false
  | .num _, none => false
  | .num d, some m => m < d

/-- The numeric value, with `NaN` collapsed to `0` (used only to print a
value that is known to be a number). -/
def JsNum.valOrZero : JsNum → Nat
  | .nan => 0
  | .num n => n

/-- An opaque JS value stored in an options object. -/
inductive JsValue where
  | num : Int → JsValue
  | str : String → JsValue
  | boolean : Bool → JsValue
deriving DecidableEq

/-- First-match association-list lookup, the model of reading a property
of a plain JS object with unique keys. -/
def assocLookup : List (String × JsValue) → String → Option JsValue
  | [], _ => none
  | (k, v) :: rest, key => if k = key then some v else assocLookup rest key

/-- `Object.assign(base, overrides)` read back as a key lookup:
a key supplied in `overrides` wins, otherwise the `base` value is used. -/
def objectAssign (base overrides : List (String × JsValue)) (key : String) :
    Option JsValue :=
  match assocLookup overrides key with
  | some v => some v
  | none => assocLookup base key

/-- `{ retries: 0 }`, the base object of
`Object.assign({ retries: 0 }, opts.httpOptions)`. -/
def defaultHttpOptions : List (String × JsValue) := [("retries", JsValue.num 0)]

/-- `this.httpOptions = Object.assign({ retries: 0 }, opts.httpOptions)`. -/
def mkHttpOptions (httpOptions : List (String × JsValue)) (key : String) :
    Option JsValue :=
  objectAssign defaultHttpOptions httpOptions key

/-- The configuration fields of a constructed `LargeDownload` instance that
`load()` reads, together with the ambient `process.stdout.isTTY` flag.
`timeout` is `none` when absent; `minSizeToShowProgress` is `none` when it
is `Infinity`.  `onRetryPresent` models
`typeof this.onRetry === 'function'`. -/
structure Opts where
  link : String
  timeout : Option Nat
  retries : Nat
  onRetryPresent : Bool
  minSizeToShowProgress : Option Nat
  isTTY : Bool
deriving DecidableEq

/-- JS truthiness of `_this.timeout` (`undefined` and `0` are falsy). -/
def jsTruthyTimeout : Option Nat → Bool
  | none => false
  | some t => t != 0

/-- The aggregate error message built in `onError`:
`Could not download {link} in {retriesDone} attempts:\n{err.message}`. -/
def aggregateMsg (link : String) (n : Nat) (errMsg : String) : String :=
  "Could not download " ++ link ++ " in " ++ toString n ++ " attempts:\n" ++ errMsg

/-- The size-mismatch error message built in `onFinish`. -/
def sizeMismatchMsg (downloadedSize declaredSize : Nat) : String :=
  "Downloaded file size (" ++ toString downloadedSize ++
    ") doesn't match \"content-length\" header (" ++ toString declaredSize ++
    ") in the server response"

/-- The timeout error message: `Download timeout ({timeout}) reached`. -/
def timeoutMsg (t : Nat) : String :=
  "Download timeout (" ++ toString t ++ ") reached"

/-- Observable side effects of `load()`, recorded in order of occurrence. -/
inductive Action where
  /-- `tryDownload()` starts running (a fresh attempt begins). -/
  | startAttempt
  /-- `readable.unpipe(writable)` in `cleanup`. -/
  | unpipe
  /-- `writable.removeListener('finish', onFinish)` in `cleanup`. -/
  | removeFinishListener
  /-- `writable.end()` in `cleanup`. -/
  | endWritable
  /-- `bar.terminate()` in `cleanup`. -/
  | terminateBar
  /-- `new ProgressBar(..., { total: declaredSize, ... })`. -/
  | barCreate (total : Nat)
  /-- `bar.tick(len)` in the `data` handler. -/
  | tick (len : Nat)
  /-- `onError(err)` was entered with this error message: the attempt
  reported a failure outcome to the retry decision logic. -/
  | outcomeFailure (msg : String)
  /-- `onFinish` took its success branch: the attempt reported success. -/
  | outcomeSuccess
  /-- `_this.onRetry(err)` was invoked with this error message. -/
  | onRetryCall (msg : String)
  /-- `reject(new Error(msg))` was invoked. -/
  | rejectOp (msg : String)
  /-- `resolve()` was invoked (the `close` listener attached by `onFinish`). -/
  | resolveOp
  /-- `req.abort()` was invoked by the expired download timer. -/
  | abortRequest
deriving DecidableEq

/-- Per-attempt mutable state: the locals of one `tryDownload()` call,
plus which listeners are live.  `finishAttached` starts true
(`writable.on('finish', onFinish)`) and is reset by `cleanup`;
`dataHandlerActive` becomes true once the `response` handler has
registered the `data` listener (that listener is never removed);
`failed` is a ghost marker recording that `onError` has run for this
attempt. -/
structure AttemptState where
  timerArmed : Bool
  barCreated : Bool
  doShowProgressBar : Bool
  declaredSize : JsNum
  downloadedSize : Nat
  finishAttached : Bool
  dataHandlerActive : Bool
  failed : Bool
deriving DecidableEq

/-- The locals of a fresh `tryDownload()` call: no timer, no bar,
`declaredSize = 0`, `downloadedSize = 0`, the `finish` listener attached. -/
def freshAttempt : AttemptState :=
  { timerArmed := false, barCreated := false, doShowProgressBar := false,
    declaredSize := JsNum.num 0, downloadedSize := 0,
    finishAttached := true, dataHandlerActive := false, failed := false }

/-- A listener attached to the writable's `close` event: either
`writable.on('close', resolve)` (success path of `onFinish`) or
`writable.on('close', tryDownload)` (retry path of `onError`). -/
inductive CloseListener where
  | resolveK
  | retryK
deriving DecidableEq

/-- The full state of one `load()` call: the `retriesDone` counter, the
current attempt's locals, the pending `close` listeners, and the action
log. -/
structure LoadState where
  retriesDone : Nat
  att : AttemptState
  closeListeners : List CloseListener
  log : List Action
deriving DecidableEq

/-- Append an action to the log. -/
def emit (s : LoadState) (a : Action) : LoadState :=
  { s with log := s.log ++ [a] }

/-- `cleanup()`: unpipe, remove the `finish` listener, `end()` the
writable, clear the timer if one is pending, and call `bar.terminate()`
whenever a bar was created.  Note that the terminate call is not guarded
by a "already cleaned up" flag: it runs on every invocation. -/
def cleanup (s : LoadState) : LoadState :=
  let s1 := emit s Action.unpipe
  let s2 := { emit s1 Action.removeFinishListener with
              att := { s1.att with finishAttached := false } }
  let s3 := emit s2 Action.endWritable
  let s4 := { s3 with att := { s3.att with timerArmed := false } }
  if s4.att.barCreated then emit s4 Action.terminateBar else s4

/-- `onError(err)`: clean up, increment `retriesDone`; within budget,
invoke `onRetry` (when provided) and attach `tryDownload` to the
writable's `close` event; otherwise reject with the aggregate error. -/
def onError (cfg : Opts) (m : String) (s : LoadState) : LoadState :=
  let s1 := { emit s (Action.outcomeFailure m) with
              att := { s.att with failed := true } }
  let s2 := cleanup s1
  let rd := s2.retriesDone + 1
  let s3 := { s2 with retriesDone := rd }
  if rd ≤ cfg.retries then
    let s4 := if cfg.onRetryPresent then emit s3 (Action.onRetryCall m) else s3
    { s4 with closeListeners := s4.closeListeners ++ [CloseListener.retryK] }
  else
    emit s3 (Action.rejectOp (aggregateMsg cfg.link rd m))

/-- `declaredSize && declaredSize !== downloadedSize`: `NaN` and `0` are
falsy, so an absent header or a declared size of zero skips the check. -/
def sizeMismatch : JsNum → Nat → Bool
  | .nan, _ => false
  | .num d, downloaded => d != 0 && d != downloaded

/-- `onFinish()`: on a size mismatch delegate to `onError` with the
mismatch message; otherwise clean up and attach `resolve` to the
writable's `close` event. -/
def onFinish (cfg : Opts) (s : LoadState) : LoadState :=
  if sizeMismatch s.att.declaredSize s.att.downloadedSize then
    onError cfg
      (sizeMismatchMsg s.att.downloadedSize s.att.declaredSize.valOrZero) s
  else
    let s1 := emit s Action.outcomeSuccess
    let s2 := cleanup s1
    { s2 with closeListeners := s2.closeListeners ++ [CloseListener.resolveK] }

/-- `tryDownload()` begins: fresh attempt locals. -/
def startAttempt (s : LoadState) : LoadState :=
  { emit s Action.startAttempt with att := freshAttempt }

/-- Run one `close` listener: `resolve`, or `tryDownload` for a retry. -/
def runCloseListener (s : LoadState) : CloseListener → LoadState
  | .resolveK => emit s Action.resolveOp
  | .retryK => startAttempt s

/-- The writable's `close` event: every attached listener runs once, in
attachment order, and the listener list empties. -/
def onClose (s : LoadState) : LoadState :=
  s.closeListeners.foldl runCloseListener { s with closeListeners := [] }

/-- `parseInt(res.headers['content-length'], 10)`: an absent header
parses to `NaN`. -/
def parseContentLength : Option Nat → JsNum
  | none => JsNum.nan
  | some n => JsNum.num n

/-- An event the runtime can deliver to the handlers registered by
`tryDownload`. -/
inductive Ev where
  /-- `readable.on('error', ...)` with this error message. -/
  | readableError (msg : String)
  /-- `writable.on('error', ...)` with this error message. -/
  | writableError (msg : String)
  /-- `readable.on('request', ...)`: the outbound request was dispatched. -/
  | request
  /-- The armed download timer expires. -/
  | timerFire
  /-- `readable.on('response', ...)` carrying the parsed `content-length`
  header (`none` when absent). -/
  | response (contentLength : Option Nat)
  /-- `res.on('data', ...)` with a chunk of this length. -/
  | data (len : Nat)
  /-- The writable's `finish` event (all bytes flushed). -/
  | finish
  /-- The writable's `close` event (file handle released). -/
  | close
deriving DecidableEq

/-- One step of the `load()` event machine, the direct translation of the
handlers registered in `tryDownload`. -/
def step (cfg : Opts) (s : LoadState) : Ev → LoadState
  | .readableError m => onError cfg m s
  | .writableError m => onError cfg m s
  | .request =>
    if jsTruthyTimeout cfg.timeout then
      { s with att := { s.att with timerArmed := true } }
    else s
  | .timerFire =>
    if s.att.timerArmed then
      let s1 := { s with att := { s.att with timerArmed := false } }
      let s2 := emit s1 Action.abortRequest
      onError cfg (timeoutMsg (cfg.timeout.getD 0)) s2
    else s
  | .response cl =>
    let d := parseContentLength cl
    let doShow := cfg.isTTY && d.gtLimit cfg.minSizeToShowProgress
    let s1 := { s with att := { s.att with
                                declaredSize := d,
                                doShowProgressBar := doShow,
                                dataHandlerActive := true } }
    if doShow then
      { emit s1 (Action.barCreate d.valOrZero) with
        att := { s1.att with barCreated := true } }
    else s1
  | .data len =>
    if s.att.dataHandlerActive then
      let s1 := { s with att := { s.att with
                                  downloadedSize := s.att.downloadedSize + len
                                  } }
      if s1.att.doShowProgressBar then emit s1 (Action.tick len) else s1
    else s
  | .finish => if s.att.finishAttached then onFinish cfg s else s
  | .close => onClose s

/-- The state at the start of `load()`'s executor, before `tryDownload()`
is first called. -/
def initState : LoadState :=
  { retriesDone := 0, att := freshAttempt, closeListeners := [], log := [] }

/-- `load()`: call `tryDownload()` once, then process the delivered
events. -/
def load (cfg : Opts) (es : List Ev) : LoadState :=
  es.foldl (step cfg) (startAttempt initState)

/-! ### Observables extracted from the action log -/

/-- Messages of the failure outcomes reported to the retry logic. -/
def failureMsgs (l : List Action) : List String :=
  l.filterMap fun a => match a with | .outcomeFailure m => some m | _ => none

/-- Messages passed to the caller's `onRetry` hook, in order. -/
def onRetryMsgs (l : List Action) : List String :=
  l.filterMap fun a => match a with | .onRetryCall m => some m | _ => none

/-- Messages passed to `reject`, in order. -/
def rejectMsgs (l : List Action) : List String :=
  l.filterMap fun a => match a with | .rejectOp m => some m | _ => none

/-- Totals passed to the `ProgressBar` constructor, in order. -/
def barCreateTotals (l : List Action) : List Nat :=
  l.filterMap fun a => match a with | .barCreate t => some t | _ => none

/-- Chunk lengths passed to `bar.tick`, in order. -/
def tickLens (l : List Action) : List Nat :=
  l.filterMap fun a => match a with | .tick n => some n | _ => none

def Action.isStart : Action → Bool
  | .startAttempt => true
  | _ => false

def Action.isTerminate : Action → Bool
  | .terminateBar => true
  | _ => false

def Action.isResolve : Action → Bool
  | .resolveOp => true
  | _ => false

def Action.isAbort : Action → Bool
  | .abortRequest => true
  | _ => false

def Action.isTick : Action → Bool
  | .tick _ => true
  | _ => false

/-- An attempt outcome report: `onError` entered or `onFinish` succeeded. -/
def Action.isOutcome : Action → Bool
  | .outcomeFailure _ => true
  | .outcomeSuccess => true
  | _ => false

def startCount (l : List Action) : Nat := l.countP Action.isStart
def terminateCount (l : List Action) : Nat := l.countP Action.isTerminate
def resolveCount (l : List Action) : Nat := l.countP Action.isResolve
def abortCount (l : List Action) : Nat := l.countP Action.isAbort
def outcomeCount (l : List Action) : Nat := l.countP Action.isOutcome
def rejectCount (l : List Action) : Nat := (rejectMsgs l).length

/-- Does some `tick` occur after some `terminate` in the log? -/
def hasTickAfterTerminate : List Action → Bool
  | [] => false
  | Action.terminateBar :: rest => rest.any Action.isTick || hasTickAfterTerminate rest
  | _ :: rest => hasTickAfterTerminate rest

/-- Number of pending `resolve` close-listeners. -/
def resolveKCount (l : List CloseListener) : Nat :=
  l.countP fun c => match c with | .resolveK => true | _ => false

/-- Number of pending `tryDownload` close-listeners. -/
def retryKCount (l : List CloseListener) : Nat :=
  l.countP fun c => match c with | .retryK => true | _ => false

/-! ### Concrete configurations and traces used in counterexamples and
witnesses -/

/-- A configuration with a 500 ms timeout and one retry. -/
def cfgTimeoutRace : Opts :=
  { link := "http://example.com/file", timeout := some 500, retries := 1,
    onRetryPresent := true, minSizeToShowProgress := some 0, isTTY := false }

/-- The race in which the download timer fires and the aborted stream then
emits its own error event, both within the first attempt. -/
def traceTimeoutRace : List Ev :=
  [Ev.request, Ev.timerFire, Ev.readableError "socket hang up"]

/-- An interactive-terminal configuration with a timeout and a generous
retry budget. -/
def cfgBarRace : Opts :=
  { link := "http://example.com/file", timeout := some 7, retries := 5,
    onRetryPresent := false, minSizeToShowProgress := some 0, isTTY := true }

/-- A trace in which a progress bar is created, the timer fires mid
transfer, a late chunk still arrives, and the aborted stream then errors. -/
def traceBarRace : List Ev :=
  [Ev.request, Ev.response (some 100), Ev.data 10, Ev.timerFire,
   Ev.data 5, Ev.readableError "boom"]

/-- A plain interactive configuration used by witnesses. -/
def cfgPlain : Opts :=
  { link := "http://example.com/file", timeout := none, retries := 0,
    onRetryPresent := true, minSizeToShowProgress := some 3, isTTY := true }

/-! ### Canonical trace families -/

/-- The trace of a run whose every attempt fails once with the given error
message: each attempt sees one stream error, then its writable closes. -/
def failTrace : List String → List Ev
  | [] => []
  | m :: ms => Ev.readableError m :: Ev.close :: failTrace ms

/-- One attempt of a download: response metadata, the data chunks, then a
single terminal event (`finish` or a stream error). -/
def attemptTrace (cl : Option Nat) (chunks : List Nat) (last : Ev) : List Ev :=
  Ev.response cl :: chunks.map Ev.data ++ [last]

/-- The progress-bar condition of the `response` handler:
`process.stdout.isTTY && declaredSize > _this.minSizeToShowProgress`. -/
def barCondition (cfg : Opts) (cl : Option Nat) : Bool :=
  cfg.isTTY && (parseContentLength cl).gtLimit cfg.minSizeToShowProgress

/-! ### Action-log segments appearing in canonical runs -/

/-- The actions `cleanup()` appends: the teardown sequence, with
`bar.terminate()` exactly when a bar was created. -/
def teardownSeg (barCreated : Bool) : List Action :=
  [Action.unpipe, Action.removeFinishListener, Action.endWritable] ++
    (if barCreated then [Action.terminateBar] else [])

/-- Actions of one retried bar-less failure, before the next attempt
starts. -/
def retrySeg (m : String) : List Action :=
  Action.outcomeFailure m :: teardownSeg false ++ [Action.onRetryCall m]

/-- Actions of one retried bar-less failure including the start of the
next attempt. -/
def failSegment (m : String) : List Action :=
  retrySeg m ++ [Action.startAttempt]

/-- The log of a sequence of retried failures. -/
def failLog : List String → List Action
  | [] => []
  | m :: ms => failSegment m ++ failLog ms

/-- Actions of the final, non-retried bar-less failure. -/
def terminalSeg (link : String) (n : Nat) (m : String) : List Action :=
  Action.outcomeFailure m :: teardownSeg false ++
    [Action.rejectOp (aggregateMsg link n m)]

/-- The attempt locals after `onError` has run `cleanup`. -/
def attAfterFail (a : AttemptState) : AttemptState :=
  { a with failed := true, finishAttached := false, timerArmed := false }

/-- A fresh attempt after its `onError` has run. -/
def failedFresh : AttemptState := attAfterFail freshAttempt

/-! ### Normal forms of the handlers -/

theorem cleanup_eq (s : LoadState) :
    cleanup s =
      { s with att := { s.att with finishAttached := false, timerArmed := false },
               log := s.log ++ teardownSeg s.att.barCreated } := by
  cases hb : s.att.barCreated <;>
    simp [cleanup, emit, teardownSeg, hb, List.append_assoc]

theorem onError_eq (cfg : Opts) (m : String) (s : LoadState) :
    onError cfg m s =
      if s.retriesDone + 1 ≤ cfg.retries then
        { retriesDone := s.retriesDone + 1,
          att := attAfterFail s.att,
          closeListeners := s.closeListeners ++ [CloseListener.retryK],
          log := s.log ++ Action.outcomeFailure m :: teardownSeg s.att.barCreated ++
            (if cfg.onRetryPresent then [Action.onRetryCall m] else []) }
      else
        { retriesDone := s.retriesDone + 1,
          att := attAfterFail s.att,
          closeListeners := s.closeListeners,
          log := s.log ++ Action.outcomeFailure m :: teardownSeg s.att.barCreated ++
            [Action.rejectOp (aggregateMsg cfg.link (s.retriesDone + 1) m)] } := by
  by_cases h : s.retriesDone + 1 ≤ cfg.retries <;>
    cases hp : cfg.onRetryPresent <;>
    cases hb : s.att.barCreated <;>
    simp [onError, cleanup, emit, attAfterFail, teardownSeg, h, hp, hb,
      List.append_assoc]

theorem onFinish_eq (cfg : Opts) (s : LoadState) :
    onFinish cfg s =
      if sizeMismatch s.att.declaredSize s.att.downloadedSize then
        onError cfg
          (sizeMismatchMsg s.att.downloadedSize s.att.declaredSize.valOrZero) s
      else
        { s with att := { s.att with finishAttached := false, timerArmed := false },
                 closeListeners := s.closeListeners ++ [CloseListener.resolveK],
                 log := s.log ++ Action.outcomeSuccess ::
                   teardownSeg s.att.barCreated } := by
  by_cases h : sizeMismatch s.att.declaredSize s.att.downloadedSize <;>
    cases hb : s.att.barCreated <;>
    simp [onFinish, cleanup, emit, teardownSeg, h, hb, List.append_assoc]

theorem onClose_retryK (s : LoadState) (h : s.closeListeners = [CloseListener.retryK]) :
    onClose s =
      { retriesDone := s.retriesDone, att := freshAttempt, closeListeners := [],
        log := s.log ++ [Action.startAttempt] } := by
  simp [onClose, h, runCloseListener, startAttempt, emit]

theorem onClose_nil (s : LoadState) (h : s.closeListeners = []) :
    onClose s = { s with closeListeners := [] } := by
  simp [onClose, h]

/-! ### How each handler moves the observables -/

theorem onError_obs (cfg : Opts) (m : String) (s : LoadState) :
    barCreateTotals (onError cfg m s).log = barCreateTotals s.log ∧
    tickLens (onError cfg m s).log = tickLens s.log ∧
    terminateCount (onError cfg m s).log =
      terminateCount s.log + (if s.att.barCreated then 1 else 0) ∧
    failureMsgs (onError cfg m s).log = failureMsgs s.log ++ [m] ∧
    outcomeCount (onError cfg m s).log = outcomeCount s.log + 1 ∧
    resolveCount (onError cfg m s).log = resolveCount s.log ∧
    startCount (onError cfg m s).log = startCount s.log ∧
    abortCount (onError cfg m s).log = abortCount s.log ∧
    resolveKCount (onError cfg m s).closeListeners =
      resolveKCount s.closeListeners ∧
    (onError cfg m s).att = attAfterFail s.att ∧
    (onError cfg m s).retriesDone = s.retriesDone + 1 := by
  rw [onError_eq]
  by_cases h : s.retriesDone + 1 ≤ cfg.retries <;>
    cases hp : cfg.onRetryPresent <;>
    cases hb : s.att.barCreated <;>
    simp [h, hp, hb, teardownSeg, barCreateTotals, tickLens, terminateCount,
      failureMsgs, outcomeCount, resolveCount, startCount, abortCount,
      resolveKCount, Action.isTerminate, Action.isOutcome, Action.isResolve,
      Action.isStart, Action.isAbort, List.filterMap_append, List.countP_append,
      List.countP_cons, List.countP_nil]

theorem onFinish_obs (cfg : Opts) (s : LoadState) :
    barCreateTotals (onFinish cfg s).log = barCreateTotals s.log ∧
    tickLens (onFinish cfg s).log = tickLens s.log ∧
    terminateCount (onFinish cfg s).log =
      terminateCount s.log + (if s.att.barCreated then 1 else 0) ∧
    resolveCount (onFinish cfg s).log = resolveCount s.log ∧
    startCount (onFinish cfg s).log = startCount s.log := by
  rw [onFinish_eq]
  by_cases h : sizeMismatch s.att.declaredSize s.att.downloadedSize
  · simp only [h, if_true]
    have hob := onError_obs cfg
      (sizeMismatchMsg s.att.downloadedSize s.att.declaredSize.valOrZero) s
    exact ⟨hob.1, hob.2.1, hob.2.2.1, hob.2.2.2.2.2.1, hob.2.2.2.2.2.2.1⟩
  · cases hb : s.att.barCreated <;>
      simp [h, hb, teardownSeg, barCreateTotals, tickLens, terminateCount,
        resolveCount, startCount, Action.isTerminate, Action.isResolve,
        Action.isStart, List.filterMap_append, List.countP_append,
        List.countP_cons, List.countP_nil]

/-! ### Claim C2 -/

/-- C2: when the retry budget is exhausted, `onError` rejects with a
single aggregate error whose message embeds the source locator, the total
number of attempts made (`retriesDone + 1`, including the first), and the
final underlying error's message, formatted exactly as
`Could not download {source} in {N} attempts:\n{lastErrorMessage}`. -/
theorem aggregate_error_format (cfg : Opts) (m : String) (s : LoadState)
    (h : cfg.retries ≤ s.retriesDone) :
    rejectMsgs (onError cfg m s).log =
      rejectMsgs s.log ++
        ["Could not download " ++ cfg.link ++ " in " ++
          toString (s.retriesDone + 1) ++ " attempts:\n" ++ m] := by
  rw [onError_eq, if_neg (by omega)]
  cases hb : s.att.barCreated <;>
    simp [hb, teardownSeg, rejectMsgs, aggregateMsg, List.filterMap_append]

/-- Witness for C2 at a concrete state: one attempt, zero budget. -/
theorem aggregate_error_format_witness :
    rejectMsgs (onError cfgPlain "oops" (load cfgPlain [])).log =
      rejectMsgs (load cfgPlain []).log ++
        ["Could not download " ++ cfgPlain.link ++ " in " ++
          toString ((load cfgPlain []).retriesDone + 1) ++ " attempts:\n" ++
          "oops"] :=
  aggregate_error_format cfgPlain "oops" (load cfgPlain []) (by decide)

/-! ### Claim C3 -/

/-- C3: on writer completion the attempt fails with `SizeMismatch` if and
only if the declared size is a known nonzero number differing from the
accumulated `downloadedSize`, with the exact message of the source; a
declared size of `0` or an absent `content-length` header (`NaN`) skips
validation and takes the success path instead. -/
theorem size_validation (cfg : Opts) (s : LoadState) :
    (sizeMismatch s.att.declaredSize s.att.downloadedSize = true ↔
      ∃ d, s.att.declaredSize = JsNum.num d ∧ d ≠ 0 ∧
        d ≠ s.att.downloadedSize) ∧
    failureMsgs (onFinish cfg s).log =
      failureMsgs s.log ++
        (if sizeMismatch s.att.declaredSize s.att.downloadedSize then
          [sizeMismatchMsg s.att.downloadedSize s.att.declaredSize.valOrZero]
        else []) ∧
    resolveKCount (onFinish cfg s).closeListeners =
      resolveKCount s.closeListeners +
        (if sizeMismatch s.att.declaredSize s.att.downloadedSize then 0
         else 1) ∧
    sizeMismatchMsg 4 10 =
      "Downloaded file size (4) doesn't match \"content-length\" header (10) in the server response" := by
  refine ⟨?_, ?_, ?_, rfl⟩
  · cases h : s.att.declaredSize with
    | nan => simp [sizeMismatch]
    | num d => simp [sizeMismatch, and_assoc]
  · rw [onFinish_eq]
    by_cases hm : sizeMismatch s.att.declaredSize s.att.downloadedSize
    · simpa [hm] using (onError_obs cfg
        (sizeMismatchMsg s.att.downloadedSize s.att.declaredSize.valOrZero)
        s).2.2.2.1
    · cases hb : s.att.barCreated <;>
        simp [hm, hb, teardownSeg, failureMsgs, List.filterMap_append]
  · rw [onFinish_eq]
    by_cases hm : sizeMismatch s.att.declaredSize s.att.downloadedSize
    · simpa [hm] using (onError_obs cfg
        (sizeMismatchMsg s.att.downloadedSize s.att.declaredSize.valOrZero)
        s).2.2.2.2.2.2.2.2.1
    · simp [hm, resolveKCount, List.countP_append, List.countP_cons]

/-! ### Claim C9 -/

/-- C9: with no caller-supplied `httpOptions` the forwarded options are
exactly `{retries: 0}`; every supplied key (including `retries`)
overrides the corresponding default. -/
theorem http_options_forwarding :
    (∀ k, mkHttpOptions [] k =
      if "retries" = k then some (JsValue.num 0) else none) ∧
    (∀ o k v, assocLookup o k = some v → mkHttpOptions o k = some v) := by
  constructor
  · intro k
    simp [mkHttpOptions, objectAssign, assocLookup, defaultHttpOptions]
  · intro o k v h
    simp [mkHttpOptions, objectAssign, h]

/-- Witness for C9: the default, and a caller-supplied `retries: 3`
overriding it. -/
theorem http_options_forwarding_witness :
    mkHttpOptions [] "retries" = some (JsValue.num 0) ∧
    mkHttpOptions [("retries", JsValue.num 3)] "retries" =
      some (JsValue.num 3) := by
  constructor
  · have h := http_options_forwarding.1 "retries"
    simpa using h
  · exact http_options_forwarding.2 [("retries", JsValue.num 3)] "retries"
      (JsValue.num 3) (by decide)

/-! ### Claim C5 -/

/-- C5 counterexample: in the race where the timer fires mid-transfer and
the aborted stream errors afterwards, `cleanup` runs twice, so
`bar.terminate()` is called twice for one attempt, and a late chunk ticks
the bar after it was terminated. -/
theorem teardown_double_terminate_counterexample :
    terminateCount (load cfgBarRace traceBarRace).log = 2 ∧
    hasTickAfterTerminate (load cfgBarRace traceBarRace).log = true ∧
    startCount (load cfgBarRace traceBarRace).log = 1 := by decide

/-- C5 (amended): teardown never raises and never settles the promise,
and its effect on the machine state is idempotent (unpipe, listener
removal, `end()` and timer clearing can be repeated); but
`bar.terminate()` runs on every `cleanup` invocation whenever a bar
exists, so invoking teardown twice calls `terminate` twice, and the
response's chunk handler is not detached by teardown, so `tick` can still
run after `terminate`. -/
theorem teardown_idempotent_amended (s : LoadState) :
    ((cleanup (cleanup s)).retriesDone = (cleanup s).retriesDone ∧
     (cleanup (cleanup s)).att = (cleanup s).att ∧
     (cleanup (cleanup s)).closeListeners = (cleanup s).closeListeners) ∧
    terminateCount (cleanup s).log =
      terminateCount s.log + (if s.att.barCreated then 1 else 0) ∧
    resolveCount (cleanup s).log = resolveCount s.log ∧
    rejectMsgs (cleanup s).log = rejectMsgs s.log := by
  cases hb : s.att.barCreated <;>
    simp [cleanup_eq, teardownSeg, hb, terminateCount, resolveCount,
      rejectMsgs, Action.isTerminate, Action.isResolve, List.countP_append,
      List.countP_cons, List.filterMap_append]

/-! ### Claim C6 -/

/-- C6 counterexample: with `retries = 1`, a timeout followed by the
aborted stream's error event makes one attempt report two failure
outcomes; the retry decision consumes both, so the same attempt both
invokes `onRetry` (scheduling a second attempt) and rejects the
promise. -/
theorem outcome_consumed_twice_counterexample :
    startCount (load cfgTimeoutRace traceTimeoutRace).log = 1 ∧
    outcomeCount (load cfgTimeoutRace traceTimeoutRace).log = 2 ∧
    (load cfgTimeoutRace traceTimeoutRace).retriesDone = 2 ∧
    onRetryMsgs (load cfgTimeoutRace traceTimeoutRace).log =
      ["Download timeout (500) reached"] ∧
    rejectMsgs (load cfgTimeoutRace traceTimeoutRace).log =
      ["Could not download http://example.com/file in 2 attempts:\nsocket hang up"] ∧
    retryKCount (load cfgTimeoutRace traceTimeoutRace).closeListeners = 1 := by
  decide

/-! ### Standalone projections of the handler lemmas -/

theorem onError_att (cfg : Opts) (m : String) (s : LoadState) :
    (onError cfg m s).att = attAfterFail s.att :=
  (onError_obs cfg m s).2.2.2.2.2.2.2.2.2.1

theorem onError_resolveKCount (cfg : Opts) (m : String) (s : LoadState) :
    resolveKCount (onError cfg m s).closeListeners =
      resolveKCount s.closeListeners :=
  (onError_obs cfg m s).2.2.2.2.2.2.2.2.1

theorem onError_resolveCount (cfg : Opts) (m : String) (s : LoadState) :
    resolveCount (onError cfg m s).log = resolveCount s.log :=
  (onError_obs cfg m s).2.2.2.2.2.1

theorem onError_startCount (cfg : Opts) (m : String) (s : LoadState) :
    startCount (onError cfg m s).log = startCount s.log :=
  (onError_obs cfg m s).2.2.2.2.2.2.1

theorem onError_abortCount (cfg : Opts) (m : String) (s : LoadState) :
    abortCount (onError cfg m s).log = abortCount s.log :=
  (onError_obs cfg m s).2.2.2.2.2.2.2.1

theorem onError_failureMsgs (cfg : Opts) (m : String) (s : LoadState) :
    failureMsgs (onError cfg m s).log = failureMsgs s.log ++ [m] :=
  (onError_obs cfg m s).2.2.2.1

theorem onError_outcomeCount (cfg : Opts) (m : String) (s : LoadState) :
    outcomeCount (onError cfg m s).log = outcomeCount s.log + 1 :=
  (onError_obs cfg m s).2.2.2.2.1

theorem onFinish_resolveCount (cfg : Opts) (s : LoadState) :
    resolveCount (onFinish cfg s).log = resolveCount s.log :=
  (onFinish_obs cfg s).2.2.2.1

theorem onFinish_startCount (cfg : Opts) (s : LoadState) :
    startCount (onFinish cfg s).log = startCount s.log :=
  (onFinish_obs cfg s).2.2.2.2

theorem onFinish_timerArmed (cfg : Opts) (s : LoadState) :
    (onFinish cfg s).att.timerArmed = false := by
  rw [onFinish_eq]
  by_cases h : sizeMismatch s.att.declaredSize s.att.downloadedSize
  · simp only [h, if_true]
    rw [onError_att]
    rfl
  · simp [h]

theorem step_response_att (cfg : Opts) (s : LoadState) (cl : Option Nat) :
    (step cfg s (Ev.response cl)).att.timerArmed = s.att.timerArmed ∧
    (step cfg s (Ev.response cl)).att.failed = s.att.failed ∧
    (step cfg s (Ev.response cl)).att.finishAttached = s.att.finishAttached ∧
    (step cfg s (Ev.response cl)).closeListeners = s.closeListeners := by
  by_cases hbc : (cfg.isTTY &&
      JsNum.gtLimit (parseContentLength cl) cfg.minSizeToShowProgress) = true <;>
    simp [step, hbc, emit]

theorem step_data_att (cfg : Opts) (s : LoadState) (len : Nat) :
    (step cfg s (Ev.data len)).att.timerArmed = s.att.timerArmed ∧
    (step cfg s (Ev.data len)).att.failed = s.att.failed ∧
    (step cfg s (Ev.data len)).att.finishAttached = s.att.finishAttached ∧
    (step cfg s (Ev.data len)).closeListeners = s.closeListeners := by
  by_cases hd : s.att.dataHandlerActive = true <;>
    by_cases hshow : s.att.doShowProgressBar = true <;>
    simp [step, hd, hshow, emit]

/-! ### The canonical all-failures run -/

theorem step_fail_retry (cfg : Opts) (hp : cfg.onRetryPresent = true)
    (m : String) (r : Nat) (L : List Action) (h : r + 1 ≤ cfg.retries) :
    step cfg ⟨r, freshAttempt, [], L⟩ (Ev.readableError m) =
      ⟨r + 1, failedFresh, [CloseListener.retryK], L ++ retrySeg m⟩ := by
  show onError cfg m _ = _
  rw [onError_eq]
  simp [h, hp, retrySeg, freshAttempt, failedFresh, attAfterFail, teardownSeg]

theorem step_fail_terminal (cfg : Opts) (m : String) (r : Nat)
    (L : List Action) (h : ¬ r + 1 ≤ cfg.retries) :
    step cfg ⟨r, freshAttempt, [], L⟩ (Ev.readableError m) =
      ⟨r + 1, failedFresh, [], L ++ terminalSeg cfg.link (r + 1) m⟩ := by
  show onError cfg m _ = _
  rw [onError_eq]
  simp [h, terminalSeg, freshAttempt, failedFresh, attAfterFail, teardownSeg]

theorem step_close_retry (cfg : Opts) (r : Nat) (a : AttemptState)
    (L : List Action) :
    step cfg ⟨r, a, [CloseListener.retryK], L⟩ Ev.close =
      ⟨r, freshAttempt, [], L ++ [Action.startAttempt]⟩ := by
  show onClose _ = _
  rw [onClose_retryK _ rfl]

theorem step_close_nil (cfg : Opts) (r : Nat) (a : AttemptState)
    (L : List Action) :
    step cfg ⟨r, a, [], L⟩ Ev.close = ⟨r, a, [], L⟩ := by
  show onClose _ = _
  rw [onClose_nil _ rfl]

theorem load_failTrace_aux (cfg : Opts) (hp : cfg.onRetryPresent = true)
    (mLast : String) :
    ∀ (ms : List String) (r : Nat) (L : List Action),
      cfg.retries = r + ms.length →
      List.foldl (step cfg) ⟨r, freshAttempt, [], L⟩
        (failTrace (ms ++ [mLast])) =
      ⟨cfg.retries + 1, failedFresh, [],
        L ++ failLog ms ++ terminalSeg cfg.link (cfg.retries + 1) mLast⟩ := by
  intro ms
  induction ms with
  | nil =>
    intro r L hb
    have hb2 : cfg.retries = r := by simpa using hb
    simp only [List.nil_append, failTrace, List.foldl_cons, List.foldl_nil]
    rw [step_fail_terminal cfg mLast r L (by omega), step_close_nil]
    simp [failLog, hb2]
  | cons m ms ih =>
    intro r L hb
    have hb2 : cfg.retries = r + ms.length + 1 := by
      simpa [Nat.add_assoc] using hb
    simp only [List.cons_append, failTrace, List.foldl_cons]
    rw [step_fail_retry cfg hp m r L (by omega), step_close_retry]
    simp only [List.append_eq]
    rw [ih (r + 1) ((L ++ retrySeg m) ++ [Action.startAttempt]) (by omega)]
    simp [failLog, failSegment, List.append_assoc]

/-! ### Observables of the canonical log segments -/

theorem startCount_append (l1 l2 : List Action) :
    startCount (l1 ++ l2) = startCount l1 + startCount l2 := by
  simp [startCount, List.countP_append]

theorem outcomeCount_append (l1 l2 : List Action) :
    outcomeCount (l1 ++ l2) = outcomeCount l1 + outcomeCount l2 := by
  simp [outcomeCount, List.countP_append]

theorem onRetryMsgs_append (l1 l2 : List Action) :
    onRetryMsgs (l1 ++ l2) = onRetryMsgs l1 ++ onRetryMsgs l2 := by
  simp [onRetryMsgs, List.filterMap_append]

theorem rejectMsgs_append (l1 l2 : List Action) :
    rejectMsgs (l1 ++ l2) = rejectMsgs l1 ++ rejectMsgs l2 := by
  simp [rejectMsgs, List.filterMap_append]

theorem failSegment_obs (m : String) :
    startCount (failSegment m) = 1 ∧
    outcomeCount (failSegment m) = 1 ∧
    onRetryMsgs (failSegment m) = [m] ∧
    rejectMsgs (failSegment m) = [] := by
  refine ⟨?_, ?_, ?_, ?_⟩ <;>
    simp [failSegment, retrySeg, teardownSeg, startCount, outcomeCount,
      onRetryMsgs, rejectMsgs, Action.isStart, Action.isOutcome,
      List.countP_append, List.countP_cons, List.filterMap_append]

theorem failLog_obs (ms : List String) :
    startCount (failLog ms) = ms.length ∧
    outcomeCount (failLog ms) = ms.length ∧
    onRetryMsgs (failLog ms) = ms ∧
    rejectMsgs (failLog ms) = [] := by
  induction ms with
  | nil => simp [failLog, startCount, outcomeCount, onRetryMsgs, rejectMsgs]
  | cons m ms ih =>
    refine ⟨?_, ?_, ?_, ?_⟩
    · rw [failLog, startCount_append, (failSegment_obs m).1, ih.1]
      simp [Nat.add_comm]
    · rw [failLog, outcomeCount_append, (failSegment_obs m).2.1, ih.2.1]
      simp [Nat.add_comm]
    · rw [failLog, onRetryMsgs_append, (failSegment_obs m).2.2.1, ih.2.2.1]
      rfl
    · rw [failLog, rejectMsgs_append, (failSegment_obs m).2.2.2, ih.2.2.2]
      rfl

theorem terminalSeg_obs (link : String) (n : Nat) (m : String) :
    startCount (terminalSeg link n m) = 0 ∧
    outcomeCount (terminalSeg link n m) = 1 ∧
    onRetryMsgs (terminalSeg link n m) = [] ∧
    rejectMsgs (terminalSeg link n m) = [aggregateMsg link n m] := by
  refine ⟨?_, ?_, ?_, ?_⟩ <;>
    simp [terminalSeg, teardownSeg, startCount, outcomeCount, onRetryMsgs,
      rejectMsgs, Action.isStart, Action.isOutcome, List.countP_append,
      List.countP_cons, List.filterMap_append]

/-! ### Claim C1 -/

/-- C1: for `maxRetries = N` and a source failing on every attempt
(errors `ms ++ [mLast]`, one per attempt), the operation makes exactly
`N + 1` attempts, invokes `onRetry` exactly `N` times with exactly the
first `N` triggering errors (never the final terminal error `mLast`),
and rejects once with the aggregate message reporting `N + 1` attempts;
for `N = 0` (`ms = []`) one attempt is made and `onRetry` is never
invoked. -/
theorem retry_budget_exhaustion (cfg : Opts) (ms : List String)
    (mLast : String) (hp : cfg.onRetryPresent = true)
    (hbudget : cfg.retries = ms.length) :
    startCount (load cfg (failTrace (ms ++ [mLast]))).log = cfg.retries + 1 ∧
    onRetryMsgs (load cfg (failTrace (ms ++ [mLast]))).log = ms ∧
    rejectMsgs (load cfg (failTrace (ms ++ [mLast]))).log =
      [aggregateMsg cfg.link (cfg.retries + 1) mLast] := by
  have hstart : startAttempt initState =
      (⟨0, freshAttempt, [], [Action.startAttempt]⟩ : LoadState) := rfl
  unfold load
  rw [hstart, load_failTrace_aux cfg hp mLast ms 0 [Action.startAttempt]
    (by simpa using hbudget)]
  refine ⟨?_, ?_, ?_⟩
  · rw [startCount_append, startCount_append, (failLog_obs ms).1,
      (terminalSeg_obs cfg.link (cfg.retries + 1) mLast).1]
    have h1 : startCount [Action.startAttempt] = 1 := by decide
    rw [h1, hbudget]
    omega
  · rw [onRetryMsgs_append, onRetryMsgs_append, (failLog_obs ms).2.2.1,
      (terminalSeg_obs cfg.link (cfg.retries + 1) mLast).2.2.1]
    have h1 : onRetryMsgs [Action.startAttempt] = [] := by decide
    rw [h1]
    simp
  · rw [rejectMsgs_append, rejectMsgs_append, (failLog_obs ms).2.2.2,
      (terminalSeg_obs cfg.link (cfg.retries + 1) mLast).2.2.2]
    have h1 : rejectMsgs [Action.startAttempt] = [] := by decide
    rw [h1]
    simp

/-- Witness for C1 at `N = 0`: one attempt, `onRetry` never invoked, the
message reports 1 attempt. -/
theorem retry_budget_exhaustion_witness :
    startCount (load cfgPlain (failTrace ([] ++ ["err"]))).log =
      cfgPlain.retries + 1 ∧
    onRetryMsgs (load cfgPlain (failTrace ([] ++ ["err"]))).log = [] ∧
    rejectMsgs (load cfgPlain (failTrace ([] ++ ["err"]))).log =
      [aggregateMsg cfgPlain.link (cfgPlain.retries + 1) "err"] :=
  retry_budget_exhaustion cfgPlain [] "err" rfl rfl

/-- C6 (amended): every `onError` invocation reports exactly one failure
outcome and consumes one budget unit, so on runs where each attempt has a
single failure origin the number of outcomes equals the number of
attempts and exactly one `reject` happens; but when several failure
origins fire for one attempt the decision logic runs once per origin
(see the counterexample). -/
theorem single_outcome_amended (cfg : Opts) (ms : List String)
    (mLast : String) (hp : cfg.onRetryPresent = true)
    (hbudget : cfg.retries = ms.length) :
    outcomeCount (load cfg (failTrace (ms ++ [mLast]))).log =
      startCount (load cfg (failTrace (ms ++ [mLast]))).log ∧
    rejectCount (load cfg (failTrace (ms ++ [mLast]))).log = 1 := by
  have hstart : startAttempt initState =
      (⟨0, freshAttempt, [], [Action.startAttempt]⟩ : LoadState) := rfl
  unfold load
  rw [hstart, load_failTrace_aux cfg hp mLast ms 0 [Action.startAttempt]
    (by simpa using hbudget)]
  constructor
  · rw [outcomeCount_append, outcomeCount_append, startCount_append,
      startCount_append, (failLog_obs ms).1, (failLog_obs ms).2.1,
      (terminalSeg_obs cfg.link (cfg.retries + 1) mLast).1,
      (terminalSeg_obs cfg.link (cfg.retries + 1) mLast).2.1]
    have h1 : outcomeCount [Action.startAttempt] = 0 := by decide
    have h2 : startCount [Action.startAttempt] = 1 := by decide
    rw [h1, h2]
    omega
  · rw [rejectCount, rejectMsgs_append, rejectMsgs_append,
      (failLog_obs ms).2.2.2,
      (terminalSeg_obs cfg.link (cfg.retries + 1) mLast).2.2.2]
    have h1 : rejectMsgs [Action.startAttempt] = [] := by decide
    rw [h1]
    simp

/-- Witness for the amended C6 on a two-attempt run. -/
theorem single_outcome_amended_witness :
    outcomeCount (load cfgTimeoutRace (failTrace (["e1"] ++ ["e2"]))).log =
      startCount (load cfgTimeoutRace (failTrace (["e1"] ++ ["e2"]))).log ∧
    rejectCount (load cfgTimeoutRace (failTrace (["e1"] ++ ["e2"]))).log = 1 :=
  single_outcome_amended cfgTimeoutRace ["e1"] "e2" rfl rfl

/-! ### Claim C4 -/

theorem foldlClose_timerArmed :
    ∀ (ls : List CloseListener) (s : LoadState),
      (ls.foldl runCloseListener s).att.timerArmed = true →
      s.att.timerArmed = true := by
  intro ls
  induction ls with
  | nil => intro s h; exact h
  | cons c ls ih =>
    intro s h
    rw [List.foldl_cons] at h
    have h2 := ih _ h
    cases c with
    | resolveK => simpa [runCloseListener, emit] using h2
    | retryK => simp [runCloseListener, startAttempt, emit, freshAttempt] at h2

theorem step_timerArmed_origin (cfg : Opts) (s : LoadState) (e : Ev)
    (h : (step cfg s e).att.timerArmed = true) :
    s.att.timerArmed = true ∨
      (e = Ev.request ∧ jsTruthyTimeout cfg.timeout = true) := by
  cases e with
  | readableError m =>
    have hz : (step cfg s (Ev.readableError m)).att.timerArmed = false := by
      show (onError cfg m s).att.timerArmed = false
      rw [onError_att]
      rfl
    rw [hz] at h
    exact absurd h Bool.false_ne_true
  | writableError m =>
    have hz : (step cfg s (Ev.writableError m)).att.timerArmed = false := by
      show (onError cfg m s).att.timerArmed = false
      rw [onError_att]
      rfl
    rw [hz] at h
    exact absurd h Bool.false_ne_true
  | request =>
    by_cases ht : jsTruthyTimeout cfg.timeout = true
    · exact Or.inr ⟨rfl, ht⟩
    · simp only [step, ht, if_false, Bool.false_eq_true] at h
      exact Or.inl h
  | timerFire =>
    by_cases ha : s.att.timerArmed = true
    · exact Or.inl ha
    · simp only [step, ha, if_false, Bool.false_eq_true] at h
  | response cl =>
    exact Or.inl ((step_response_att cfg s cl).1 ▸ h)
  | data len =>
    exact Or.inl ((step_data_att cfg s len).1 ▸ h)
  | finish =>
    by_cases hf : s.att.finishAttached = true
    · simp only [step, hf, if_true] at h
      rw [onFinish_timerArmed] at h
      exact absurd h Bool.false_ne_true
    · simp only [step, hf, if_false, Bool.false_eq_true] at h
      exact Or.inl h
  | close =>
    exact Or.inl
      (foldlClose_timerArmed s.closeListeners { s with closeListeners := [] } h)

theorem load_timerArmed_origin (cfg : Opts) :
    ∀ (es : List Ev) (s : LoadState),
      ((es.foldl (step cfg) s).att.timerArmed = true) →
      s.att.timerArmed = true ∨
        (Ev.request ∈ es ∧ jsTruthyTimeout cfg.timeout = true) := by
  intro es
  induction es with
  | nil => intro s h; exact Or.inl h
  | cons e es ih =>
    intro s h
    rw [List.foldl_cons] at h
    rcases ih (step cfg s e) h with h1 | h2
    · rcases step_timerArmed_origin cfg s e h1 with h3 | ⟨he, ht⟩
      · exact Or.inl h3
      · exact Or.inr ⟨by rw [he]; exact List.mem_cons_self _ _, ht⟩
    · exact Or.inr ⟨List.mem_cons_of_mem _ h2.1, h2.2⟩

/-- C4: the deadline timer is armed only when `timeout` is configured
(truthy) and only once a `request` event has been delivered; a `request`
event with a configured timeout does arm it; and when the armed timer
expires the in-flight request is aborted and the attempt fails with the
message `Download timeout ({timeout}) reached`. -/
theorem timeout_guard (cfg : Opts) :
    (∀ es, (load cfg es).att.timerArmed = true →
      jsTruthyTimeout cfg.timeout = true ∧ Ev.request ∈ es) ∧
    (∀ s, jsTruthyTimeout cfg.timeout = true →
      (step cfg s Ev.request).att.timerArmed = true) ∧
    (∀ s, s.att.timerArmed = true →
      abortCount (step cfg s Ev.timerFire).log = abortCount s.log + 1 ∧
      failureMsgs (step cfg s Ev.timerFire).log =
        failureMsgs s.log ++ [timeoutMsg (cfg.timeout.getD 0)]) := by
  refine ⟨?_, ?_, ?_⟩
  · intro es h
    rcases load_timerArmed_origin cfg es (startAttempt initState) h with h1 | h2
    · simp [startAttempt, initState, freshAttempt, emit] at h1
    · exact ⟨h2.2, h2.1⟩
  · intro s ht
    simp [step, ht]
  · intro s ha
    simp only [step, ha, if_true]
    constructor
    · rw [onError_abortCount]
      simp [emit, abortCount, List.countP_append, Action.isAbort]
    · rw [onError_failureMsgs]
      simp [emit, failureMsgs, List.filterMap_append]

/-- Witness for C4: with a 500 ms timeout, a `request` event arms the
timer, and an armed load state exists after `[request]`. -/
theorem timeout_guard_witness :
    (jsTruthyTimeout cfgTimeoutRace.timeout = true ∧
      Ev.request ∈ [Ev.request]) ∧
    (step cfgTimeoutRace (load cfgTimeoutRace []) Ev.request).att.timerArmed
      = true := by
  constructor
  · exact (timeout_guard cfgTimeoutRace).1 [Ev.request] (by decide)
  · exact (timeout_guard cfgTimeoutRace).2.1 (load cfgTimeoutRace [])
      (by decide)

/-! ### Claim C8 -/

theorem step_counts_no_close (cfg : Opts) (s : LoadState) (e : Ev)
    (h : e ≠ Ev.close) :
    resolveCount (step cfg s e).log = resolveCount s.log ∧
    startCount (step cfg s e).log = startCount s.log := by
  cases e with
  | readableError m =>
    exact ⟨onError_resolveCount cfg m s, onError_startCount cfg m s⟩
  | writableError m =>
    exact ⟨onError_resolveCount cfg m s, onError_startCount cfg m s⟩
  | request =>
    by_cases ht : jsTruthyTimeout cfg.timeout = true <;> simp [step, ht]
  | timerFire =>
    by_cases ha : s.att.timerArmed = true
    · simp only [step, ha, if_true]
      rw [onError_resolveCount, onError_startCount]
      constructor <;>
        simp [emit, resolveCount, startCount, List.countP_append,
          Action.isResolve, Action.isStart]
    · simp [step, ha]
  | response cl =>
    by_cases hbc : (cfg.isTTY &&
        JsNum.gtLimit (parseContentLength cl) cfg.minSizeToShowProgress)
        = true <;>
      simp [step, hbc, emit, resolveCount, startCount, List.countP_append,
        Action.isResolve, Action.isStart]
  | data len =>
    by_cases hd : s.att.dataHandlerActive = true <;>
      by_cases hshow : s.att.doShowProgressBar = true <;>
      simp [step, hd, hshow, emit, resolveCount, startCount,
        List.countP_append, Action.isResolve, Action.isStart]
  | finish =>
    by_cases hf : s.att.finishAttached = true
    · simp only [step, hf, if_true]
      exact ⟨onFinish_resolveCount cfg s, onFinish_startCount cfg s⟩
    · simp [step, hf]
  | close => exact absurd rfl h

theorem foldl_counts_no_close (cfg : Opts) :
    ∀ (es : List Ev) (s : LoadState), Ev.close ∉ es →
      resolveCount ((es.foldl (step cfg) s)).log = resolveCount s.log ∧
      startCount ((es.foldl (step cfg) s)).log = startCount s.log := by
  intro es
  induction es with
  | nil => intro s _; exact ⟨rfl, rfl⟩
  | cons e es ih =>
    intro s h
    rw [List.foldl_cons]
    have he : e ≠ Ev.close := fun hc => h (hc ▸ List.mem_cons_self _ _)
    have hes : Ev.close ∉ es := fun hc => h (List.mem_cons_of_mem _ hc)
    have h1 := step_counts_no_close cfg s e he
    have h2 := ih (step cfg s e) hes
    exact ⟨h2.1.trans h1.1, h2.2.trans h1.2⟩

/-- C8: `resolve` fires only from a `close` listener and a new attempt is
started only from a `close` listener, so on any run in which the
writable's `close` event never occurs, success is never reported and no
attempt beyond the first is started: success is observable only after the
writer confirmed closure, and a retried attempt starts only after the
previous attempt's writer confirmed closure. -/
theorem closure_before_success_and_retry (cfg : Opts) (es : List Ev)
    (h : Ev.close ∉ es) :
    resolveCount (load cfg es).log = 0 ∧ startCount (load cfg es).log = 1 := by
  have h1 := foldl_counts_no_close cfg es (startAttempt initState) h
  have h2 : resolveCount (startAttempt initState).log = 0 := by decide
  have h3 : startCount (startAttempt initState).log = 1 := by decide
  exact ⟨h1.1.trans h2, h1.2.trans h3⟩

/-- Witness for C8: even a completed transfer (`finish` delivered, no
`close` yet) has not resolved, and no second attempt has started. -/
theorem closure_before_success_and_retry_witness :
    resolveCount (load cfgPlain [Ev.finish]).log = 0 ∧
    startCount (load cfgPlain [Ev.finish]).log = 1 :=
  closure_before_success_and_retry cfgPlain [Ev.finish] (by decide)

/-! ### Claim C10 -/

/-- C10: `onError` marks the attempt failed and detaches the writer's
`finish` listener; from then on (absent the `close` event that begins a
new attempt) the attempt stays failed, the `finish` listener stays
detached, and no `resolve` close-listener is ever attached — a failed
attempt can never later produce a success. -/
theorem no_success_after_failure (cfg : Opts) :
    (∀ m s, (onError cfg m s).att.failed = true ∧
      (onError cfg m s).att.finishAttached = false) ∧
    (∀ s e, s.att.failed = true → s.att.finishAttached = false →
      e ≠ Ev.close →
      (step cfg s e).att.failed = true ∧
      (step cfg s e).att.finishAttached = false ∧
      resolveKCount (step cfg s e).closeListeners =
        resolveKCount s.closeListeners) := by
  constructor
  · intro m s
    rw [onError_att]
    exact ⟨rfl, rfl⟩
  · intro s e hf hfin he
    cases e with
    | readableError m =>
      refine ⟨?_, ?_, onError_resolveKCount cfg m s⟩
      · show (onError cfg m s).att.failed = true
        rw [onError_att]
        rfl
      · show (onError cfg m s).att.finishAttached = false
        rw [onError_att]
        rfl
    | writableError m =>
      refine ⟨?_, ?_, onError_resolveKCount cfg m s⟩
      · show (onError cfg m s).att.failed = true
        rw [onError_att]
        rfl
      · show (onError cfg m s).att.finishAttached = false
        rw [onError_att]
        rfl
    | request =>
      by_cases ht : jsTruthyTimeout cfg.timeout = true <;>
        simp [step, ht, hf, hfin]
    | timerFire =>
      by_cases ha : s.att.timerArmed = true
      · simp only [step, ha, if_true]
        refine ⟨?_, ?_, ?_⟩
        · rw [onError_att]
          rfl
        · rw [onError_att]
          rfl
        · rw [onError_resolveKCount]
          rfl
      · simp [step, ha, hf, hfin]
    | response cl =>
      have hpr := step_response_att cfg s cl
      exact ⟨hpr.2.1.trans hf, hpr.2.2.1.trans hfin, by rw [hpr.2.2.2]⟩
    | data len =>
      have hpd := step_data_att cfg s len
      exact ⟨hpd.2.1.trans hf, hpd.2.2.1.trans hfin, by rw [hpd.2.2.2]⟩
    | finish =>
      simp [step, hfin, hf]
    | close => exact absurd rfl he

/-- Witness for C10: after the timeout/stream-error race the attempt is
failed with the `finish` listener detached, and a further chunk event
attaches no `resolve` listener. -/
theorem no_success_after_failure_witness :
    (onError cfgPlain "e" (load cfgPlain [])).att.failed = true ∧
    resolveKCount
      (step cfgTimeoutRace (load cfgTimeoutRace traceTimeoutRace)
        (Ev.data 3)).closeListeners =
      resolveKCount (load cfgTimeoutRace traceTimeoutRace).closeListeners := by
  constructor
  · exact ((no_success_after_failure cfgPlain).1 "e" (load cfgPlain [])).1
  · exact ((no_success_after_failure cfgTimeoutRace).2
      (load cfgTimeoutRace traceTimeoutRace) (Ev.data 3) (by decide)
      (by decide) (by decide)).2.2

/-! ### Claim C7 -/

theorem onError_barCreateTotals (cfg : Opts) (m : String) (s : LoadState) :
    barCreateTotals (onError cfg m s).log = barCreateTotals s.log :=
  (onError_obs cfg m s).1

theorem onError_tickLens (cfg : Opts) (m : String) (s : LoadState) :
    tickLens (onError cfg m s).log = tickLens s.log :=
  (onError_obs cfg m s).2.1

theorem onError_terminateCount (cfg : Opts) (m : String) (s : LoadState) :
    terminateCount (onError cfg m s).log =
      terminateCount s.log + (if s.att.barCreated then 1 else 0) :=
  (onError_obs cfg m s).2.2.1

theorem onFinish_barCreateTotals (cfg : Opts) (s : LoadState) :
    barCreateTotals (onFinish cfg s).log = barCreateTotals s.log :=
  (onFinish_obs cfg s).1

theorem onFinish_tickLens (cfg : Opts) (s : LoadState) :
    tickLens (onFinish cfg s).log = tickLens s.log :=
  (onFinish_obs cfg s).2.1

theorem onFinish_terminateCount (cfg : Opts) (s : LoadState) :
    terminateCount (onFinish cfg s).log =
      terminateCount s.log + (if s.att.barCreated then 1 else 0) :=
  (onFinish_obs cfg s).2.2.1

theorem barCreateTotals_append (l1 l2 : List Action) :
    barCreateTotals (l1 ++ l2) = barCreateTotals l1 ++ barCreateTotals l2 := by
  simp [barCreateTotals, List.filterMap_append]

theorem tickLens_append (l1 l2 : List Action) :
    tickLens (l1 ++ l2) = tickLens l1 ++ tickLens l2 := by
  simp [tickLens, List.filterMap_append]

theorem terminateCount_append (l1 l2 : List Action) :
    terminateCount (l1 ++ l2) = terminateCount l1 + terminateCount l2 := by
  simp [terminateCount, List.countP_append]

theorem obs_map_tick (l : List Nat) :
    barCreateTotals (l.map Action.tick) = [] ∧
    tickLens (l.map Action.tick) = l ∧
    terminateCount (l.map Action.tick) = 0 := by
  induction l with
  | nil => exact ⟨rfl, rfl, rfl⟩
  | cons c cs ih =>
    simp only [barCreateTotals, tickLens, terminateCount] at ih ⊢
    simp [List.map_cons, List.filterMap_cons, List.countP_cons,
      Action.isTerminate, ih.1, ih.2.1, ih.2.2]

theorem filterMap_comp_tick (chunks : List Nat) :
    List.filterMap
      ((fun a => match a with | Action.tick t => some t | _ => none) ∘
        Action.tick) chunks = chunks := by
  induction chunks with
  | nil => rfl
  | cons c cs ih =>
    simp only [List.filterMap_cons, Function.comp]
    simp [ih]

theorem step_finish_attached (cfg : Opts) (s : LoadState)
    (hf : s.att.finishAttached = true) :
    step cfg s Ev.finish = onFinish cfg s := by
  simp [step, hf]

theorem step_response_start (cfg : Opts) (cl : Option Nat) :
    step cfg (⟨0, freshAttempt, [], [Action.startAttempt]⟩ : LoadState)
      (Ev.response cl) =
      ⟨0,
        { freshAttempt with
          declaredSize := parseContentLength cl,
          doShowProgressBar := barCondition cfg cl,
          dataHandlerActive := true,
          barCreated := barCondition cfg cl },
        [],
        Action.startAttempt ::
          (if barCondition cfg cl then
            [Action.barCreate (parseContentLength cl).valOrZero]
          else [])⟩ := by
  have hbc : (cfg.isTTY &&
      JsNum.gtLimit (parseContentLength cl) cfg.minSizeToShowProgress) =
      barCondition cfg cl := rfl
  cases h : barCondition cfg cl <;>
    simp [step, emit, freshAttempt, hbc, h]

theorem foldl_data (cfg : Opts) :
    ∀ (chunks : List Nat) (s : LoadState),
      s.att.dataHandlerActive = true →
      List.foldl (step cfg) s (chunks.map Ev.data) =
        { s with
          att := { s.att with
                   downloadedSize := s.att.downloadedSize + chunks.sum },
          log := s.log ++
            (if s.att.doShowProgressBar then chunks.map Action.tick
             else []) } := by
  intro chunks
  induction chunks with
  | nil =>
    intro s h
    simp
  | cons c chunks ih =>
    intro s h
    rw [List.map_cons, List.foldl_cons]
    by_cases hshow : s.att.doShowProgressBar = true
    · have hstep : step cfg s (Ev.data c) =
          { s with
            att := { s.att with
                     downloadedSize := s.att.downloadedSize + c },
            log := s.log ++ [Action.tick c] } := by
        simp [step, h, hshow, emit]
      rw [hstep, ih { s with att := { s.att with downloadedSize := s.att.downloadedSize + c }, log := s.log ++ [Action.tick c] } (by exact h)]
      simp [hshow, Nat.add_assoc, List.append_assoc]
    · have hstep : step cfg s (Ev.data c) =
          { s with
            att := { s.att with
                     downloadedSize := s.att.downloadedSize + c } } := by
        simp [step, h, hshow, emit]
      rw [hstep, ih { s with att := { s.att with downloadedSize := s.att.downloadedSize + c } } (by exact h)]
      simp [hshow, Nat.add_assoc]

/-- C7: the progress bar is created if and only if the output is an
interactive terminal and the declared size is a known number strictly
exceeding `minSizeToShowProgress`; over a full attempt (response, data
chunks, then `finish` or a stream error) a created bar is constructed
exactly once with the declared size as its total, ticked once per chunk
with that chunk's byte count, and terminated exactly once whether the
attempt succeeds or fails; a bar that is not created is never
constructed, ticked, or terminated. -/
theorem progress_bar_lifecycle (cfg : Opts) (cl : Option Nat)
    (chunks : List Nat) (m : String) (last : Ev)
    (hlast : last = Ev.finish ∨ last = Ev.readableError m) :
    (barCondition cfg cl = true ↔
      (cfg.isTTY = true ∧ ∃ d msz, parseContentLength cl = JsNum.num d ∧
        cfg.minSizeToShowProgress = some msz ∧ msz < d)) ∧
    barCreateTotals (load cfg (attemptTrace cl chunks last)).log =
      (if barCondition cfg cl then [(parseContentLength cl).valOrZero]
       else []) ∧
    tickLens (load cfg (attemptTrace cl chunks last)).log =
      (if barCondition cfg cl then chunks else []) ∧
    terminateCount (load cfg (attemptTrace cl chunks last)).log =
      (if barCondition cfg cl then 1 else 0) := by
  constructor
  · cases hin : cfg.isTTY <;> cases hpc : parseContentLength cl <;>
      cases hms : cfg.minSizeToShowProgress <;>
      simp [barCondition, JsNum.gtLimit, hin, hpc, hms]
  · have hload : load cfg (attemptTrace cl chunks last) =
        step cfg
          (List.foldl (step cfg)
            (step cfg (startAttempt initState) (Ev.response cl))
            (chunks.map Ev.data))
          last := by
      show List.foldl (step cfg) (startAttempt initState)
        (Ev.response cl :: (chunks.map Ev.data ++ [last])) = _
      rw [List.foldl_cons, List.foldl_append, List.foldl_cons, List.foldl_nil]
    rw [hload,
      show startAttempt initState =
        (⟨0, freshAttempt, [], [Action.startAttempt]⟩ : LoadState) from rfl,
      step_response_start, foldl_data cfg chunks _ rfl]
    rcases hlast with h | h <;> subst h
    · rw [step_finish_attached cfg _ (by rfl), onFinish_barCreateTotals,
        onFinish_tickLens, onFinish_terminateCount]
      cases hbc : barCondition cfg cl <;>
        simp [hbc, barCreateTotals_append, tickLens_append,
          terminateCount_append, (obs_map_tick chunks).1,
          (obs_map_tick chunks).2.1, (obs_map_tick chunks).2.2,
          barCreateTotals, tickLens, terminateCount, List.filterMap_cons,
          List.countP_cons, Action.isTerminate, filterMap_comp_tick]
    · rw [show ∀ s, step cfg s (Ev.readableError m) = onError cfg m s from
        fun s => rfl, onError_barCreateTotals, onError_tickLens,
        onError_terminateCount]
      cases hbc : barCondition cfg cl <;>
        simp [hbc, barCreateTotals_append, tickLens_append,
          terminateCount_append, (obs_map_tick chunks).1,
          (obs_map_tick chunks).2.1, (obs_map_tick chunks).2.2,
          barCreateTotals, tickLens, terminateCount, List.filterMap_cons,
          List.countP_cons, Action.isTerminate, filterMap_comp_tick]

/-- Witness for C7 on a concrete successful attempt with a bar. -/
theorem progress_bar_lifecycle_witness :
    barCreateTotals
      (load cfgPlain (attemptTrace (some 10) [4, 6] Ev.finish)).log =
      (if barCondition cfgPlain (some 10) then
        [(parseContentLength (some 10)).valOrZero] else []) ∧
    tickLens (load cfgPlain (attemptTrace (some 10) [4, 6] Ev.finish)).log =
      (if barCondition cfgPlain (some 10) then [4, 6] else []) ∧
    terminateCount
      (load cfgPlain (attemptTrace (some 10) [4, 6] Ev.finish)).log =
      (if barCondition cfgPlain (some 10) then 1 else 0) :=
  (progress_bar_lifecycle cfgPlain (some 10) [4, 6] "x" Ev.finish
    (Or.inl rfl)).2

end LargeDownload
